import Mathlib

/-!
Shallow embedding of `src/src/Tutorial02_Cube.cpp` (Diligent Engine tutorial
sample).  Float values of the source are modelled as exact rationals (vertex
and color data) or reals (transform matrices); GPU calls issued by `Render`
are modelled as an explicit command list; the driver object's members are a
`DriverState` record.
-/

namespace Tutorial02_Cube

/-- Modelled from the spec: the engine type `float4x4`, a 4x4 matrix of
floats (floats as reals), multiplied with ordinary matrix multiplication in
the row-vector convention the sample relies on. -/
abbrev Matrix4 := Matrix (Fin 4) (Fin 4) ℝ

/-- Modelled from the spec: the external math library `float4x4::RotationX`
(rotation about the X axis, row-vector convention). -/
noncomputable def RotationX (θ : ℝ) : Matrix4 :=
  !![1, 0, 0, 0;
     0, Real.cos θ, Real.sin θ, 0;
     0, -Real.sin θ, Real.cos θ, 0;
     0, 0, 0, 1]

/-- Modelled from the spec: the external math library `float4x4::RotationY`
(rotation about the Y axis, row-vector convention). -/
noncomputable def RotationY (θ : ℝ) : Matrix4 :=
  !![Real.cos θ, 0, -Real.sin θ, 0;
     0, 1, 0, 0;
     Real.sin θ, 0, Real.cos θ, 0;
     0, 0, 0, 1]

/-- Modelled from the spec: the external math library `float4x4::Translation`
(row-vector convention: the offset sits in the fourth row). -/
def Translation (x y z : ℝ) : Matrix4 :=
  !![1, 0, 0, 0;
     0, 1, 0, 0;
     0, 0, 1, 0;
     x, y, z, 1]

/-- Vertex layout of `CreateVertexBuffer`: 3-float position plus 4-float
color (floats as exact rationals). -/
structure Vertex where
  pos : ℚ × ℚ × ℚ
  color : ℚ × ℚ × ℚ × ℚ
deriving DecidableEq

/-- Color constant `forest` from `CreateVertexBuffer`. -/
def forest : ℚ × ℚ × ℚ × ℚ := (0.043137254901960784, 0.4, 0.13725490196078433, 1)

/-- Color constant `dark` from `CreateVertexBuffer`. -/
def dark : ℚ × ℚ × ℚ × ℚ := (0.18823529411764706, 0.47843137254901963, 0.054901960784313725, 1)

/-- Color constant `kelly` from `CreateVertexBuffer`. -/
def kelly : ℚ × ℚ × ℚ × ℚ := (0.2980392156862745, 0.7333333333333333, 0.09019607843137255, 1)

/-- Color constant `brown` from `CreateVertexBuffer`. -/
def brown : ℚ × ℚ × ℚ × ℚ := (0.549, 0.275, 0.031, 1)

/-- Color constant `darkBrown` from `CreateVertexBuffer`. -/
def darkBrown : ℚ × ℚ × ℚ × ℚ := (0.22, 0.098, 0.051, 1)

/-- The literal vertex array `CubeVerts` of `CreateVertexBuffer`. -/
def CubeVerts : List Vertex :=
  [ ⟨(0, 1.25, 0), kelly⟩,
    ⟨(0, 0.5, 0.5), kelly⟩,
    ⟨(0.125, 0.5, 0.21650635), forest⟩,
    ⟨(0.4330127, 0.5, 0.25), kelly⟩,
    ⟨(0.25, 0.5, 0), forest⟩,
    ⟨(0.4330127, 0.5, -0.25), kelly⟩,
    ⟨(0.125, 0.5, -0.21650635), forest⟩,
    ⟨(0, 0.5, -0.5), kelly⟩,
    ⟨(-0.125, 0.5, -0.21650635), forest⟩,
    ⟨(-0.4330127, 0.5, -0.25), kelly⟩,
    ⟨(-0.25, 0.5, 0), forest⟩,
    ⟨(-0.4330127, 0.5, 0.25), kelly⟩,
    ⟨(-0.125, 0.5, 0.21650635), forest⟩,
    ⟨(0, 0.75, 0), dark⟩,
    ⟨(0, 0, 0.375), forest⟩,
    ⟨(0.375, 0, 0.64951905), kelly⟩,
    ⟨(0.32475953, 0, 0.1875), forest⟩,
    ⟨(0.75, 0, 0), kelly⟩,
    ⟨(0.32475953, 0, -0.1875), forest⟩,
    ⟨(0.375, 0, -0.64951905), kelly⟩,
    ⟨(0, 0, -0.375), forest⟩,
    ⟨(-0.375, 0, -0.64951905), kelly⟩,
    ⟨(-0.32475953, 0, -0.1875), forest⟩,
    ⟨(-0.75, 0, 0), kelly⟩,
    ⟨(-0.32475953, 0, 0.1875), forest⟩,
    ⟨(-0.375, 0, 0.64951905), kelly⟩,
    ⟨(0, 0.25, 0), dark⟩,
    ⟨(0.0, -0.5, 0.9), kelly⟩,
    ⟨(0.225, -0.5, 0.38971143), forest⟩,
    ⟨(0.779423, -0.5, 0.45), kelly⟩,
    ⟨(0.45, -0.5, 0), forest⟩,
    ⟨(0.779423, -0.5, -0.45), kelly⟩,
    ⟨(0.225, -0.5, -0.38971143), forest⟩,
    ⟨(0, -0.5, -0.9), kelly⟩,
    ⟨(-0.225, -0.5, -0.38971143), forest⟩,
    ⟨(-0.779423, -0.5, -0.45), kelly⟩,
    ⟨(-0.45, -0.5, 0), forest⟩,
    ⟨(-0.779423, -0.5, 0.45), kelly⟩,
    ⟨(-0.225, -0.5, 0.38971143), forest⟩,
    ⟨(0, -0.5, 0.1), brown⟩,
    ⟨(-0.0866025403784, -0.5, -0.05), brown⟩,
    ⟨(0.0866025403784, -0.5, -0.05), brown⟩,
    ⟨(0, -1, 0.1), brown⟩,
    ⟨(-0.0866025403784, -1, -0.05), brown⟩,
    ⟨(0.0866025403784, -1, -0.05), brown⟩,
    ⟨(0.0433012701892, -1, 0.025), brown⟩,
    ⟨(-0.0433012701892, -1, 0.025), brown⟩,
    ⟨(0, -1, -0.05), brown⟩,
    ⟨(0, -1, 0.3), darkBrown⟩,
    ⟨(-0.259808, -1, -0.15), darkBrown⟩,
    ⟨(0.259808, -1, -0.15), darkBrown⟩,
    ⟨(0, -0.8, 0.1), brown⟩,
    ⟨(-0.0866025403784, -0.8, -0.05), brown⟩,
    ⟨(0.0866025403784, -0.8, -0.05), brown⟩ ]

/-- The literal index array `Indices` of `CreateIndexBuffer`. -/
def Indices : List ℕ :=
  [ 0, 1, 2,
    0, 2, 3,
    0, 3, 4,
    0, 4, 5,
    0, 5, 6,
    0, 6, 7,
    0, 7, 8,
    0, 8, 9,
    0, 9, 10,
    0, 10, 11,
    0, 11, 12,
    0, 12, 1,
    13, 14, 15,
    13, 15, 16,
    13, 16, 17,
    13, 17, 18,
    13, 18, 19,
    13, 19, 20,
    13, 20, 21,
    13, 21, 22,
    13, 22, 23,
    13, 23, 24,
    13, 24, 25,
    13, 25, 14,
    26, 27, 28, 26, 28, 29, 26, 29, 30, 26, 30, 31, 26, 31, 32, 26, 32, 33,
    26, 33, 34, 26, 34, 35, 26, 35, 36, 26, 36, 37, 26, 37, 38, 26, 38, 27,
    39, 40, 42,
    42, 40, 43,
    41, 39, 42,
    41, 42, 44,
    41, 44, 40,
    40, 44, 43,
    51, 46, 48,
    51, 48, 45,
    52, 49, 46,
    52, 47, 49,
    53, 45, 50,
    53, 50, 47 ]

/-- Buffer usage values appearing in the sample (`USAGE_IMMUTABLE`,
`USAGE_DYNAMIC`). -/
inductive Usage where
  | immutable
  | dynamic
deriving DecidableEq

/-- Bind-flag values appearing in the sample. -/
inductive BindFlag where
  | vertexBuffer
  | indexBuffer
  | uniformBuffer
deriving DecidableEq

/-- The relevant fields of the engine `BufferDesc` structure; `size` is in
bytes, as in the source. -/
structure BufferDesc where
  name : String
  usage : Usage
  bindFlags : BindFlag
  cpuAccessWrite : Bool
  size : ℕ
deriving DecidableEq

/-- Size in bytes of one 32-bit float. -/
def floatSizeBytes : ℕ := 4

/-- Size in bytes of one `Vertex` (`float3` position plus `float4` color):
`sizeof(Vertex)` in the source. -/
def vertexSizeBytes : ℕ := 7 * floatSizeBytes

/-- Size in bytes of one `Uint32` index. -/
def uint32SizeBytes : ℕ := 4

/-- Size in bytes of one `float4x4`: `sizeof(float4x4)` in the source. -/
def float4x4SizeBytes : ℕ := 16 * floatSizeBytes

/-- The uniform-buffer description `CBDesc` built in `CreatePipelineState`:
dynamic usage, CPU-writable, sized for exactly one `float4x4`. -/
def CBDesc : BufferDesc :=
  { name := "VS constants CB"
    usage := .dynamic
    bindFlags := .uniformBuffer
    cpuAccessWrite := true
    size := float4x4SizeBytes }

/-- The vertex-buffer description `VertBuffDesc` built in
`CreateVertexBuffer`; its size is `sizeof(CubeVerts)`. -/
def VertBuffDesc : BufferDesc :=
  { name := "Cube vertex buffer"
    usage := .immutable
    bindFlags := .vertexBuffer
    cpuAccessWrite := false
    size := vertexSizeBytes * CubeVerts.length }

/-- The index-buffer description `IndBuffDesc` built in `CreateIndexBuffer`;
its size is `sizeof(Indices)`. -/
def IndBuffDesc : BufferDesc :=
  { name := "Cube index buffer"
    usage := .immutable
    bindFlags := .indexBuffer
    cpuAccessWrite := false
    size := uint32SizeBytes * Indices.length }

/-- The engine `BufferData` structure: initial contents and their byte size. -/
structure BufferData (α : Type) where
  data : List α
  dataSize : ℕ

/-- The initial-data record `VBData` of `CreateVertexBuffer`. -/
def VBData : BufferData Vertex := ⟨CubeVerts, vertexSizeBytes * CubeVerts.length⟩

/-- The initial-data record `IBData` of `CreateIndexBuffer`. -/
def IBData : BufferData ℕ := ⟨Indices, uint32SizeBytes * Indices.length⟩

/-- A created GPU buffer: its description and its (immutable) contents. -/
structure GPUBuffer (α : Type) where
  desc : BufferDesc
  contents : List α

/-- `Tutorial02_Cube::CreateVertexBuffer`: creates the vertex buffer from
`VertBuffDesc` and `VBData`. -/
def CreateVertexBuffer : GPUBuffer Vertex := ⟨VertBuffDesc, VBData.data⟩

/-- `Tutorial02_Cube::CreateIndexBuffer`: creates the index buffer from
`IndBuffDesc` and `IBData`. -/
def CreateIndexBuffer : GPUBuffer ℕ := ⟨IndBuffDesc, IBData.data⟩

/-- The driver object's own mutable members (the base-class members are
owned by the external framework and out of scope). -/
structure DriverState where
  worldViewProjMatrix : Matrix4
  cubeVertexBuffer : GPUBuffer Vertex
  cubeIndexBuffer : GPUBuffer ℕ
  vsConstants : BufferDesc
  convertPSOutputToGamma : Bool

/-- `Tutorial02_Cube::Update(CurrTime, ElapsedTime)`, with the base-class
results `GetSurfacePretransformMatrix` and `GetAdjustedProjectionMatrix`
(external engine code) passed in as the parameters `srfPreTransform` and
`proj`.  `elapsedTime` is unused, exactly as in the source. -/
noncomputable def Update (currTime elapsedTime : ℝ) (srfPreTransform proj : Matrix4)
    (s : DriverState) : DriverState :=
  let cubeModelTransform := RotationY (currTime * 0.5) * RotationX (-Real.pi * 0.1)
  let view := Translation 0 0.25 5
  let _ := elapsedTime
  { s with worldViewProjMatrix := cubeModelTransform * view * srfPreTransform * proj }

/-- Identifiers for the three GPU buffers the sample owns. -/
inductive BufferId where
  | vertex
  | index
  | uniform
deriving DecidableEq

/-- Index type of the draw call (`VT_UINT32`). -/
inductive IndexType where
  | uint32
deriving DecidableEq

/-- The GPU commands `Render` issues through the immediate context, in
order, with the arguments the sample passes. -/
inductive Cmd where
  | clearRenderTarget (color : ℝ × ℝ × ℝ × ℝ)
  | clearDepthStencil (depth : ℝ) (stencil : ℕ)
  | mapWriteBuffer (target : BufferId) (sizeBytes : ℕ) (value : Matrix4)
  | setVertexBuffers (startSlot numBuffers : ℕ) (buffer : BufferId)
  | setIndexBuffer (buffer : BufferId) (byteOffset : ℕ)
  | setPipelineState
  | commitShaderResources
  | drawIndexed (indexType : IndexType) (numIndices : ℕ)

/-- The literal clear color `{0.350f, 0.350f, 0.350f, 1.0f}` of `Render`. -/
def ClearColor : ℝ × ℝ × ℝ × ℝ := (0.35, 0.35, 0.35, 1)

/-- `Tutorial02_Cube::Render`, with the external `LinearToSRGB` color
conversion passed in as the parameter `linearToSRGB`.  It returns the
(unchanged) driver state together with the command list it submits. -/
def Render (linearToSRGB : ℝ × ℝ × ℝ × ℝ → ℝ × ℝ × ℝ × ℝ)
    (s : DriverState) : DriverState × List Cmd :=
  (s,
   [ .clearRenderTarget
       (if s.convertPSOutputToGamma then linearToSRGB ClearColor else ClearColor),
     .clearDepthStencil 1 0,
     .mapWriteBuffer .uniform float4x4SizeBytes s.worldViewProjMatrix,
     .setVertexBuffers 0 1 .vertex,
     .setIndexBuffer .index 0,
     .setPipelineState,
     .commitShaderResources,
     .drawIndexed .uint32 144 ])

/-- Whether a command is an indexed draw call. -/
def Cmd.isDraw : Cmd → Bool
  | .drawIndexed _ _ => true
  | _ => false

/-- Whether a command writes into the contents of the given buffer. -/
def Cmd.writesBuffer : Cmd → BufferId → Bool
  | .mapWriteBuffer b _ _, b2 => b == b2
  | _, _ => false

/-- Whether a command is a CPU write into the uniform buffer. -/
def Cmd.isUniformWrite : Cmd → Bool
  | .mapWriteBuffer .uniform _ _ => true
  | _ => false

/-- The kind of a command, forgetting its arguments. -/
inductive CmdKind where
  | clearRT
  | clearDS
  | mapWrite
  | setVB
  | setIB
  | setPSO
  | commitSRB
  | draw
deriving DecidableEq

/-- Maps a command to its kind. -/
def Cmd.kind : Cmd → CmdKind
  | .clearRenderTarget _ => .clearRT
  | .clearDepthStencil _ _ => .clearDS
  | .mapWriteBuffer _ _ _ => .mapWrite
  | .setVertexBuffers _ _ _ => .setVB
  | .setIndexBuffer _ _ => .setIB
  | .setPipelineState => .setPSO
  | .commitShaderResources => .commitSRB
  | .drawIndexed _ _ => .draw

/-- The driver state right after `Initialize` ran (worldViewProjMatrix is
default-constructed to the identity by the engine math library). -/
def initState (gamma : Bool) : DriverState :=
  { worldViewProjMatrix := 1
    cubeVertexBuffer := CreateVertexBuffer
    cubeIndexBuffer := CreateIndexBuffer
    vsConstants := CBDesc
    convertPSOutputToGamma := gamma }

/-! ## Helper lemmas -/

/-- Rotating by the zero angle about Y gives the identity matrix. -/
theorem RotationY_zero : RotationY 0 = 1 := by
  ext i j
  fin_cases i <;> fin_cases j <;>
    simp [RotationY, Matrix.one_apply, Matrix.vecHead, Matrix.vecTail]

/-- Unfolding lemma for the matrix `Update` stores. -/
theorem Update_wvp (t et : ℝ) (srf proj : Matrix4) (s : DriverState) :
    (Update t et srf proj s).worldViewProjMatrix =
      RotationY (t * 0.5) * RotationX (-Real.pi * 0.1) *
        Translation 0 0.25 5 * srf * proj := rfl

/-- At time 0 the rotateY factor drops out of the stored matrix. -/
theorem Update_zero_wvp (et : ℝ) (srf proj : Matrix4) (s : DriverState) :
    (Update 0 et srf proj s).worldViewProjMatrix =
      RotationX (-Real.pi * 0.1) * Translation 0 0.25 5 * srf * proj := by
  rw [Update_wvp, zero_mul, RotationY_zero, one_mul]

/-- The rotation angle `-PI_F * 0.1f` of the source equals `-π/10`. -/
theorem neg_pi_mul_tenth : -Real.pi * 0.1 = -(Real.pi / 10) := by
  norm_num
  ring

/-- The cosine of `π/10` is not 1, hence `RotationX (-π/10)` is not the
identity. -/
theorem cos_pi_div_ten_ne_one : Real.cos (Real.pi / 10) ≠ 1 := by
  intro h
  obtain ⟨n, hn⟩ := (Real.cos_eq_one_iff _).mp h
  have h20 : (20 * (n : ℝ) - 1) * Real.pi = 0 := by linear_combination 10 * hn
  rcases mul_eq_zero.mp h20 with h2 | h2
  · have h4 : ((20 * n : ℤ) : ℝ) = ((1 : ℤ) : ℝ) := by push_cast; linarith
    have h5 : (20 * n : ℤ) = 1 := Int.cast_injective h4
    omega
  · exact Real.pi_ne_zero h2

/-! ## Claim theorems -/

/-- C1: for every time value `t`, `Update` computes the model matrix as
`RotationY (t * 0.5) * RotationX (-(π/10))`, the view as the fixed
translation `(0, 0.25, 5)`, and stores as the world-view-projection matrix
the product model * view * surface-pretransform * projection, in that
order. -/
theorem C1_update_formula (t et : ℝ) (srf proj : Matrix4) (s : DriverState) :
    (Update t et srf proj s).worldViewProjMatrix =
      (RotationY (t * 0.5) * RotationX (-(Real.pi / 10))) *
        Translation 0 0.25 5 * srf * proj := by
  rw [Update_wvp, neg_pi_mul_tenth]

/-- C2: for every state reached by `Update` (any current time, elapsed time,
pretransform and projection), `Render` issues exactly one indexed draw call,
and that draw call uses exactly 144 indices, the length of the literal index
array. -/
theorem C2_single_draw_144 (lin : ℝ × ℝ × ℝ × ℝ → ℝ × ℝ × ℝ × ℝ)
    (t et : ℝ) (srf proj : Matrix4) (s : DriverState) :
    (Render lin (Update t et srf proj s)).2.filter Cmd.isDraw =
        [Cmd.drawIndexed IndexType.uint32 144] ∧
      Indices.length = 144 :=
  ⟨rfl, rfl⟩

/-- C3 (counterexample): with the surface pretransform and the projection
instantiated at the identity, the world-view-projection matrix `Update`
computes at time 0 is NOT identity-rotation * fixed-translation *
pretransform * projection: the factor `RotationX (-π/10)` is not the
identity. -/
theorem C3_counterexample :
    (Update 0 0 1 1 (initState false)).worldViewProjMatrix ≠
      (1 : Matrix4) * Translation 0 0.25 5 * 1 * 1 := by
  intro h
  rw [Update_zero_wvp] at h
  simp only [Matrix.mul_one, Matrix.one_mul] at h
  have h11 := congrArg (fun M : Matrix4 => M 1 1) h
  simp [RotationX, Translation, Matrix.mul_apply, Fin.sum_univ_four] at h11
  rw [show Real.pi * 0.1 = Real.pi / 10 by norm_num; ring] at h11
  exact cos_pi_div_ten_ne_one h11

/-- C3 (amended): at time 0 the world-view-projection matrix equals
`RotationX (-(π/10))` (the rotateY factor, `RotationY 0`, being the
identity) times the fixed camera translation, the surface pretransform and
the projection. -/
theorem C3_amended_time_zero (et : ℝ) (srf proj : Matrix4) (s : DriverState) :
    (Update 0 et srf proj s).worldViewProjMatrix =
      RotationX (-(Real.pi / 10)) * Translation 0 0.25 5 * srf * proj ∧
    RotationY 0 = 1 :=
  ⟨by rw [Update_zero_wvp, neg_pi_mul_tenth], RotationY_zero⟩

/-- C4: the vertex buffer holds exactly the 54 literal vertices of
`CubeVerts`, and the byte sizes passed to the device (both in the buffer
descriptions and in the initial-data records) equal the sizes of the literal
constant arrays. -/
theorem C4_buffer_contents_and_sizes :
    CreateVertexBuffer.contents = CubeVerts ∧
      CubeVerts.length = 54 ∧
      CreateVertexBuffer.desc.size = vertexSizeBytes * CubeVerts.length ∧
      VBData.dataSize = vertexSizeBytes * CubeVerts.length ∧
      CreateIndexBuffer.contents = Indices ∧
      CreateIndexBuffer.desc.size = uint32SizeBytes * Indices.length ∧
      IBData.dataSize = uint32SizeBytes * Indices.length :=
  ⟨rfl, rfl, rfl, rfl, rfl, rfl, rfl⟩

/-- C5: both buffers are created with immutable usage, and afterwards no
operation writes to their contents: `Update` leaves both buffer members
untouched, `Render` leaves the whole state untouched, and no command
`Render` submits writes to the vertex or the index buffer. -/
theorem C5_buffers_immutable :
    VertBuffDesc.usage = Usage.immutable ∧
      IndBuffDesc.usage = Usage.immutable ∧
      (∀ (t et : ℝ) (srf proj : Matrix4) (s : DriverState),
        (Update t et srf proj s).cubeVertexBuffer = s.cubeVertexBuffer ∧
          (Update t et srf proj s).cubeIndexBuffer = s.cubeIndexBuffer) ∧
      (∀ (lin : ℝ × ℝ × ℝ × ℝ → ℝ × ℝ × ℝ × ℝ) (s : DriverState),
        (Render lin s).1 = s ∧
          (Render lin s).2.filter
              (fun c => c.writesBuffer BufferId.vertex ||
                c.writesBuffer BufferId.index) = []) :=
  ⟨rfl, rfl, fun _ _ _ _ _ => ⟨rfl, rfl⟩, fun _ _ => ⟨rfl, rfl⟩⟩

/-- C6: on every frame `Render` submits exactly this sequence of commands,
in this order: clear render target (fixed gray, gamma-converted exactly when
the fixed flag is set), clear depth to 1, write the current transform into
the uniform buffer, bind the vertex buffer, bind the index buffer, set the
pipeline state, commit shader resources, draw 144 indices. -/
theorem C6_render_order (lin : ℝ × ℝ × ℝ × ℝ → ℝ × ℝ × ℝ × ℝ)
    (s : DriverState) :
    (Render lin s).2.map Cmd.kind =
        [CmdKind.clearRT, CmdKind.clearDS, CmdKind.mapWrite, CmdKind.setVB,
          CmdKind.setIB, CmdKind.setPSO, CmdKind.commitSRB, CmdKind.draw] ∧
      (Render lin s).2 =
        [Cmd.clearRenderTarget
            (if s.convertPSOutputToGamma then lin ClearColor else ClearColor),
          Cmd.clearDepthStencil 1 0,
          Cmd.mapWriteBuffer BufferId.uniform float4x4SizeBytes
            s.worldViewProjMatrix,
          Cmd.setVertexBuffers 0 1 BufferId.vertex,
          Cmd.setIndexBuffer BufferId.index 0,
          Cmd.setPipelineState,
          Cmd.commitShaderResources,
          Cmd.drawIndexed IndexType.uint32 144] :=
  ⟨rfl, rfl⟩

/-- C7: `Update` is deterministic and total: it is a total function, and two
invocations with the same current time (and the same pretransform and
projection) store identical world-view-projection matrices, whatever the
elapsed times and prior states were; no error value exists in its type. -/
theorem C7_update_deterministic (t et₁ et₂ : ℝ) (srf proj : Matrix4)
    (s₁ s₂ : DriverState) :
    (Update t et₁ srf proj s₁).worldViewProjMatrix =
      (Update t et₂ srf proj s₂).worldViewProjMatrix :=
  rfl

/-- C8: after initialization the only driver member ever modified is the
transform matrix: `Update` preserves every member except
`worldViewProjMatrix`, and `Render` returns the state unchanged. -/
theorem C8_only_transform_mutates (t et : ℝ) (srf proj : Matrix4)
    (s : DriverState) (lin : ℝ × ℝ × ℝ × ℝ → ℝ × ℝ × ℝ × ℝ) :
    (Update t et srf proj s).cubeVertexBuffer = s.cubeVertexBuffer ∧
      (Update t et srf proj s).cubeIndexBuffer = s.cubeIndexBuffer ∧
      (Update t et srf proj s).vsConstants = s.vsConstants ∧
      (Update t et srf proj s).convertPSOutputToGamma =
        s.convertPSOutputToGamma ∧
      (Render lin s).1 = s :=
  ⟨rfl, rfl, rfl, rfl, rfl⟩

set_option maxRecDepth 4000 in
/-- C9: every element of the literal index array is strictly smaller than
the length (54) of the literal vertex array, so every index the draw call
uses refers to a valid vertex. -/
theorem C9_indices_in_bounds : ∀ i ∈ Indices, i < CubeVerts.length := by
  decide

/-- C9 witness: the concrete index 53 occurs in the index array and is in
bounds. -/
theorem C9_indices_in_bounds_witness :
    53 ∈ Indices ∧ 53 < CubeVerts.length :=
  ⟨by decide, C9_indices_in_bounds 53 (by decide)⟩

/-- C10: the uniform buffer is created with size exactly one `float4x4`
(64 bytes), and on every frame `Render` performs exactly one write into it,
of exactly one `float4x4` (the current transform), which fits the buffer. -/
theorem C10_uniform_write_fits :
    CBDesc.size = float4x4SizeBytes ∧
      float4x4SizeBytes = 64 ∧
      float4x4SizeBytes ≤ CBDesc.size ∧
      ∀ (lin : ℝ × ℝ × ℝ × ℝ → ℝ × ℝ × ℝ × ℝ) (s : DriverState),
        (Render lin s).2.filter Cmd.isUniformWrite =
          [Cmd.mapWriteBuffer BufferId.uniform float4x4SizeBytes
            s.worldViewProjMatrix] :=
  ⟨rfl, rfl, le_refl _, fun _ _ => rfl⟩

end Tutorial02_Cube
